import Mathlib

/-!
Verification development for the av-studio gateway core: the token analyzer,
the cost calculator and the smart router
(`src/av_studio/gateway/token_analyzer.py`, `src/av_studio/gateway/router.py`).

Embedding conventions:
* Python `float` values are modelled as exact rationals (`ℚ`); Python `int` as
  `ℕ` or `ℤ` as appropriate.
* Python `dict`s whose insertion order matters (the model registry, the pricing
  table, the latency history, the `by_model` aggregation) are association lists
  in insertion order.
* Fallible Python code (dictionary key errors) is modelled with `Except`.
* The external tokenizer libraries (`tiktoken`, `transformers`) are not part of
  the repository; their token counts enter the model as oracle parameters.
-/

/-- ASCII-faithful model of Python `str.lower()`. -/
def lowerStr (s : String) : String := String.mk (s.data.map Char.toLower)

/-- `leadsList n h` is true when `n` is an initial segment of `h`. -/
def leadsList : List Char → List Char → Bool
  | [], _ => true
  | _ :: _, [] => false
  | a :: as, b :: bs => a == b && leadsList as bs

/-- Model of Python's `needle in hay` substring test. -/
def containsSub (needle hay : String) : Bool :=
  (List.range (hay.data.length + 1)).any (fun i => leadsList needle.data (hay.data.drop i))

/-- Ordered association-list lookup (Python `dict[k]` / `dict.get(k)`). -/
def lookupAssoc {α : Type} : List (String × α) → String → Option α
  | [], _ => none
  | (k2, v2) :: rest, k => if k2 == k then some v2 else lookupAssoc rest k

/-- Ordered association-list update: overwrite in place, append when absent
(Python `dict[k] = v`). -/
def setAssoc {α : Type} : List (String × α) → String → α → List (String × α)
  | [], k, v => [(k, v)]
  | (k2, v2) :: rest, k, v =>
      if k2 == k then (k, v) :: rest else (k2, v2) :: setAssoc rest k v

/-- Ordered association-list accumulation
(Python `d[k] = d.get(k, 0) + v`). -/
def bumpAssoc : List (String × ℚ) → String → ℚ → List (String × ℚ)
  | [], k, v => [(k, v)]
  | (k2, v2) :: rest, k, v =>
      if k2 == k then (k2, v2 + v) :: rest else (k2, v2) :: bumpAssoc rest k v

/-- Python `int(x)`: truncation toward zero. -/
def pyTrunc (q : ℚ) : ℤ := if 0 ≤ q then Rat.floor q else Rat.ceil q

/-- Round to the nearest integer, ties to even (the rounding used by Python's
fixed-point string formatting). -/
def roundHalfEven (q : ℚ) : ℤ :=
  let f := Rat.floor q
  let r := q - (f : ℚ)
  if r < 1/2 then f
  else if 1/2 < r then f + 1
  else if f % 2 = 0 then f else f + 1

/-- Model of Python `f"{q:.4f}"`. -/
def formatFixed4 (q : ℚ) : String :=
  let n := roundHalfEven (q * 10000)
  let sign := if q < 0 then "-" else ""
  let a := n.natAbs
  let fs := toString (a % 10000)
  sign ++ toString (a / 10000) ++ "." ++ String.mk (List.replicate (4 - fs.length) '0') ++ fs

/-- Model of Python `f"{q:.0%}"`. -/
def formatPercent0 (q : ℚ) : String := toString (roundHalfEven (q * 100)) ++ "%"

/-! ## Data model (`router.py` enums and dataclasses, `settings.py` provider enum) -/

/-- `TaskType` from `router.py`. -/
inductive TaskType
  | chat
  | code
  | audio_transcription
  | audio_generation
  | image_analysis
  | video_analysis
  | embedding
  | summarization
  | creative_writing
deriving DecidableEq, Repr

/-- The `StrEnum` string value of each task type. -/
def TaskType.value : TaskType → String
  | .chat => "chat"
  | .code => "code"
  | .audio_transcription => "audio_transcription"
  | .audio_generation => "audio_generation"
  | .image_analysis => "image_analysis"
  | .video_analysis => "video_analysis"
  | .embedding => "embedding"
  | .summarization => "summarization"
  | .creative_writing => "creative_writing"

/-- `ModelProvider` from `config/settings.py`. -/
inductive ModelProvider
  | ollama
  | mlx
  | openai
  | anthropic
  | google
deriving DecidableEq, Repr

/-- `ModelCapability` dataclass from `router.py`. -/
structure ModelCapability where
  provider : ModelProvider
  model_id : String
  supports : List TaskType
  max_context : ℕ
  cost_per_1k_input : ℚ
  cost_per_1k_output : ℚ
  avg_latency_ms : ℤ
  quality_score : ℚ
  is_local : Bool
  requires_gpu : Bool
deriving DecidableEq, Repr

/-- `TokenCount` dataclass from `token_analyzer.py`. -/
structure TokenCount where
  input_tokens : ℕ
  estimated_output_tokens : ℕ
  total_tokens : ℕ
  method : String
deriving DecidableEq, Repr

/-- The `breakdown` dict attached to a `CostEstimate` by `estimate_cost`. -/
structure CostBreakdown where
  input_tokens : ℕ
  output_tokens : ℕ
  input_rate : ℚ
  output_rate : ℚ
deriving DecidableEq, Repr

/-- `CostEstimate` dataclass from `token_analyzer.py`. -/
structure CostEstimate where
  input_cost : ℚ
  output_cost : ℚ
  total_cost : ℚ
  currency : String
  model : String
  breakdown : Option CostBreakdown
deriving DecidableEq, Repr

/-! ## Token analyzer (`token_analyzer.py`, class `TokenAnalyzer`) -/

/-- A payload passed to `count_tokens`: either a plain string or a list of chat
messages. A message is modelled by its `(role, content)` pair (the values read
from the Python dict by `_messages_to_text`). -/
inductive Payload
  | str (s : String)
  | messages (l : List (String × String))

/-- Oracle for the external tokenizer libraries. `tiktokenCount model text`
models `TokenAnalyzer._count_tiktoken` (tiktoken plus its internal fallback);
`llamaCount text` models `TokenAnalyzer._count_llama`. Both libraries live
outside this repository, so their numeric behaviour is a parameter. -/
structure TokenAnalyzer where
  tiktokenCount : String → String → ℕ
  llamaCount : String → ℕ

/-- `TokenAnalyzer._messages_to_text`. -/
def TokenAnalyzer.messages_to_text (messages : List (String × String)) : String :=
  String.intercalate "\n" (messages.map (fun m => m.1 ++ ": " ++ m.2))

/-- The flattening step at the top of `count_tokens`: a string payload is used
as is, a message list goes through `_messages_to_text`. -/
def payloadText : Payload → String
  | .str s => s
  | .messages l => TokenAnalyzer.messages_to_text l

/-- `TokenAnalyzer.count_tokens`. -/
def TokenAnalyzer.count_tokens (ta : TokenAnalyzer) (text : Payload) (model : String) :
    TokenCount :=
  let text := payloadText text
  let cm :=
    if containsSub "gpt" (lowerStr model) || containsSub "openai" (lowerStr model) then
      (ta.tiktokenCount model text, "tiktoken")
    else if containsSub "llama" (lowerStr model) then
      (ta.llamaCount text, "llama-tokenizer")
    else if containsSub "claude" (lowerStr model) then
      (ta.tiktokenCount "gpt-4" text, "tiktoken-approximation")
    else
      (text.length / 4, "character-estimate")
  let count := cm.1
  let estimated_output := min (count / 2) 2000
  { input_tokens := count
    estimated_output_tokens := estimated_output
    total_tokens := count + estimated_output
    method := cm.2 }

/-! ## Cost calculator (`token_analyzer.py`, class `CostCalculator`) -/

/-- One entry of the `CostCalculator.PRICING` table. The Python entries are
dicts with heterogeneous keys: most have `input`/`output`, the `elevenlabs`
entry has only `per_character`; each key is modelled as optional. -/
structure Pricing where
  input : Option ℚ
  output : Option ℚ
  per_character : Option ℚ
deriving DecidableEq, Repr

/-- `CostCalculator.PRICING`, in dict insertion order. -/
def PRICING : List (String × Pricing) :=
  [ ("gpt-4o", ⟨some 0.0025, some 0.01, none⟩)
  , ("gpt-4o-mini", ⟨some 0.00015, some 0.0006, none⟩)
  , ("gpt-4-turbo", ⟨some 0.01, some 0.03, none⟩)
  , ("claude-3-5-sonnet", ⟨some 0.003, some 0.015, none⟩)
  , ("claude-3-5-haiku", ⟨some 0.0008, some 0.004, none⟩)
  , ("claude-3-opus", ⟨some 0.015, some 0.075, none⟩)
  , ("gemini-2.0-flash", ⟨some 0.000075, some 0.0003, none⟩)
  , ("gemini-1.5-pro", ⟨some 0.00125, some 0.005, none⟩)
  , ("ollama", ⟨some 0.0, some 0.0, none⟩)
  , ("mlx", ⟨some 0.0, some 0.0, none⟩)
  , ("elevenlabs", ⟨none, none, some 0.00003⟩) ]

/-- `CostCalculator` mutable state. -/
structure CostCalculator where
  total_spent : ℚ
  budget_limit : Option ℚ
  spending_history : List CostEstimate
deriving DecidableEq, Repr

/-- The state set up by `CostCalculator.__init__`. -/
def CostCalculator.init : CostCalculator :=
  { total_spent := 0, budget_limit := none, spending_history := [] }

/-- `CostCalculator._get_pricing`: first pricing key that is a substring of the
lowercased model name; default zero-cost pricing when none matches. -/
def CostCalculator.get_pricing (model : String) : Pricing :=
  let model_lower := lowerStr model
  match PRICING.find? (fun kv => containsSub kv.1 model_lower) with
  | some kv => kv.2
  | none => ⟨some 0.0, some 0.0, none⟩

/-- `CostCalculator.estimate_cost`. The Python body reads `pricing["input"]`
and then `pricing["output"]`; a missing key raises `KeyError`, modelled by
`Except.error`. -/
def CostCalculator.estimate_cost (model : String) (input_tokens output_tokens : ℕ) :
    Except String CostEstimate :=
  let pricing := CostCalculator.get_pricing model
  match pricing.input with
  | none => .error "KeyError: input"
  | some input_rate =>
    match pricing.output with
    | none => .error "KeyError: output"
    | some output_rate =>
      let input_cost := ((input_tokens : ℚ) / 1000) * input_rate
      let output_cost := ((output_tokens : ℚ) / 1000) * output_rate
      .ok { input_cost := input_cost
            output_cost := output_cost
            total_cost := input_cost + output_cost
            currency := "USD"
            model := model
            breakdown := some ⟨input_tokens, output_tokens, input_rate, output_rate⟩ }

/-- `CostCalculator.record_cost`. -/
def CostCalculator.record_cost (c : CostCalculator) (estimate : CostEstimate) :
    CostCalculator :=
  { c with total_spent := c.total_spent + estimate.total_cost
           spending_history := c.spending_history ++ [estimate] }

/-- `CostCalculator.check_budget`. -/
def CostCalculator.check_budget (c : CostCalculator) (estimated_cost : ℚ) :
    Bool × String :=
  match c.budget_limit with
  | none => (true, "No budget limit set")
  | some limit =>
    if c.total_spent + estimated_cost > limit then
      (false, "Would exceed budget. Remaining: $" ++ formatFixed4 (limit - c.total_spent))
    else
      (true, "Within budget")

/-- `CostCalculator.set_budget`. -/
def CostCalculator.set_budget (c : CostCalculator) (limit : ℚ) : CostCalculator :=
  { c with budget_limit := some limit }

/-- The dict returned by `CostCalculator.get_summary`. -/
structure SpendSummary where
  total_spent : ℚ
  budget_limit : Option ℚ
  remaining : Option ℚ
  by_model : List (String × ℚ)
  request_count : ℕ
deriving DecidableEq, Repr

/-- `CostCalculator.get_summary`. The `remaining` field mirrors the Python
truthiness test `if self.budget_limit`: a limit of `0.0` also yields `None`. -/
def CostCalculator.get_summary (c : CostCalculator) : SpendSummary :=
  { total_spent := c.total_spent
    budget_limit := c.budget_limit
    remaining :=
      match c.budget_limit with
      | some limit => if limit = 0 then none else some (limit - c.total_spent)
      | none => none
    by_model := c.spending_history.foldl (fun acc e => bumpAssoc acc e.model e.total_cost) []
    request_count := c.spending_history.length }

/-! ## Model registry (`router.py`, `MODEL_REGISTRY`) -/

/-- Registry entry `"ollama:llama3.2:8b"`. -/
def ollamaLlama : ModelCapability :=
  { provider := .ollama
    model_id := "llama3.2:8b"
    supports := [.chat, .code, .summarization]
    max_context := 128000
    cost_per_1k_input := 0.0
    cost_per_1k_output := 0.0
    avg_latency_ms := 50
    quality_score := 0.82
    is_local := true
    requires_gpu := true }

/-- Registry entry `"ollama:qwen2.5-coder:7b"`. -/
def ollamaQwenCoder : ModelCapability :=
  { provider := .ollama
    model_id := "qwen2.5-coder:7b"
    supports := [.code, .chat]
    max_context := 32000
    cost_per_1k_input := 0.0
    cost_per_1k_output := 0.0
    avg_latency_ms := 45
    quality_score := 0.85
    is_local := true
    requires_gpu := true }

/-- Registry entry `"mlx:llama-3.2-8b"` (the default fallback model). -/
def mlxLlama : ModelCapability :=
  { provider := .mlx
    model_id := "mlx-community/Llama-3.2-8B-Instruct-4bit"
    supports := [.chat, .code, .summarization, .creative_writing]
    max_context := 128000
    cost_per_1k_input := 0.0
    cost_per_1k_output := 0.0
    avg_latency_ms := 30
    quality_score := 0.82
    is_local := true
    requires_gpu := true }

/-- Registry entry `"openai:gpt-4o"`. -/
def openaiGpt4o : ModelCapability :=
  { provider := .openai
    model_id := "gpt-4o"
    supports := [.chat, .code, .image_analysis, .creative_writing]
    max_context := 128000
    cost_per_1k_input := 0.0025
    cost_per_1k_output := 0.01
    avg_latency_ms := 800
    quality_score := 0.95
    is_local := false
    requires_gpu := false }

/-- Registry entry `"anthropic:claude-3.5-sonnet"`. -/
def anthropicSonnet : ModelCapability :=
  { provider := .anthropic
    model_id := "claude-3-5-sonnet-20241022"
    supports := [.chat, .code, .creative_writing, .image_analysis]
    max_context := 200000
    cost_per_1k_input := 0.003
    cost_per_1k_output := 0.015
    avg_latency_ms := 1000
    quality_score := 0.96
    is_local := false
    requires_gpu := false }

/-- Registry entry `"google:gemini-2.0-flash"`. -/
def googleGemini : ModelCapability :=
  { provider := .google
    model_id := "gemini-2.0-flash"
    supports := [.chat, .code, .image_analysis, .video_analysis]
    max_context := 1000000
    cost_per_1k_input := 0.000075
    cost_per_1k_output := 0.0003
    avg_latency_ms := 400
    quality_score := 0.90
    is_local := false
    requires_gpu := false }

/-- `MODEL_REGISTRY`, in dict insertion order. -/
def MODEL_REGISTRY : List (String × ModelCapability) :=
  [ ("ollama:llama3.2:8b", ollamaLlama)
  , ("ollama:qwen2.5-coder:7b", ollamaQwenCoder)
  , ("mlx:llama-3.2-8b", mlxLlama)
  , ("openai:gpt-4o", openaiGpt4o)
  , ("anthropic:claude-3.5-sonnet", anthropicSonnet)
  , ("google:gemini-2.0-flash", googleGemini) ]

/-! ## Smart router (`router.py`, class `SmartRouter`) -/

/-- `RouterConfig` dataclass. -/
structure RouterConfig where
  prefer_local : Bool
  max_cost_usd : ℚ
  max_latency_ms : ℤ
  min_quality_score : ℚ
  fallback_model : String
deriving DecidableEq, Repr

/-- The dataclass defaults of `RouterConfig`. -/
def RouterConfig.default : RouterConfig :=
  { prefer_local := true
    max_cost_usd := 0.50
    max_latency_ms := 2000
    min_quality_score := 0.80
    fallback_model := "mlx:llama-3.2-8b" }

/-- `RoutingDecision` dataclass. -/
structure RoutingDecision where
  model_key : String
  model : ModelCapability
  reason : String
  estimated_cost : ℚ
  estimated_latency_ms : ℤ
deriving DecidableEq, Repr

/-- `SmartRouter` state: config, registry copy and latency history. -/
structure SmartRouter where
  config : RouterConfig
  model_registry : List (String × ModelCapability)
  latency_history : List (String × List ℚ)
deriving DecidableEq, Repr

/-- The state set up by `SmartRouter.__init__()` with no explicit config. -/
def SmartRouter.init : SmartRouter :=
  { config := RouterConfig.default
    model_registry := MODEL_REGISTRY
    latency_history := [] }

/-- `SmartRouter._calculate_cost`. -/
def SmartRouter.calculate_cost (model : ModelCapability)
    (input_tokens output_tokens : ℕ) : ℚ :=
  ((input_tokens : ℚ) / 1000) * model.cost_per_1k_input
    + ((output_tokens : ℚ) / 1000) * model.cost_per_1k_output

/-- `SmartRouter._get_latency_estimate`: mean of the last up-to-10 recorded
samples when any exist (Python `int(...)` truncation), else the declared
baseline. -/
def SmartRouter.get_latency_estimate (s : SmartRouter) (key : String)
    (model : ModelCapability) : ℤ :=
  match lookupAssoc s.latency_history key with
  | some hist =>
      if hist ≠ [] then
        let recent := hist.drop (hist.length - 10)
        pyTrunc (recent.sum / (recent.length : ℚ))
      else model.avg_latency_ms
  | none => model.avg_latency_ms

/-- `SmartRouter._score_model`. -/
def SmartRouter.score_model (s : SmartRouter) (model : ModelCapability)
    (cost : ℚ) (latency : ℤ) : ℚ :=
  model.quality_score * 40
    + (if cost = 0 then 30 else max 0 (30 - cost * 100))
    + max 0 (20 - (latency : ℚ) / 100)
    + (if s.config.prefer_local && model.is_local then 10 else 0)

/-- `SmartRouter._generate_reason`. -/
def SmartRouter.generate_reason (model : ModelCapability) (cost : ℚ)
    (latency : ℤ) (task : TaskType) : String :=
  let parts :=
    (if model.is_local then ["local model (zero cost)"]
     else ["cost: $" ++ formatFixed4 cost])
    ++ ["latency: ~" ++ toString latency ++ "ms"]
    ++ ["quality: " ++ formatPercent0 model.quality_score]
  "Selected " ++ model.model_id ++ " for " ++ task.value ++ ": "
    ++ String.intercalate ", " parts

/-- The effective cost cap of `route`:
`self.config.max_cost_usd if max_cost is None else max_cost`. -/
def SmartRouter.effective_max_cost (s : SmartRouter) (max_cost : Option ℚ) : ℚ :=
  match max_cost with
  | none => s.config.max_cost_usd
  | some c => c

/-- Python `require_quality or self.config.min_quality_score`: `None` and the
float `0.0` are both falsy, so either defers to the configured minimum. -/
def SmartRouter.effective_min_quality (s : SmartRouter) (require_quality : Option ℚ) : ℚ :=
  match require_quality with
  | none => s.config.min_quality_score
  | some q => if q = 0 then s.config.min_quality_score else q

/-- The filtering step applied to one registry entry inside `route`'s loop:
`none` when any `continue` fires, otherwise the `(key, model, cost, latency)`
tuple appended to `candidates`. -/
def SmartRouter.consider (s : SmartRouter) (task : TaskType)
    (input_tokens expected_output_tokens : ℕ) (require_local : Bool)
    (require_quality : Option ℚ) (max_cost : Option ℚ)
    (kv : String × ModelCapability) :
    Option (String × ModelCapability × ℚ × ℤ) :=
  let key := kv.1
  let model := kv.2
  if task ∉ model.supports then none
  else if require_local && !model.is_local then none
  else if input_tokens > model.max_context then none
  else
    let cost := SmartRouter.calculate_cost model input_tokens expected_output_tokens
    if cost > SmartRouter.effective_max_cost s max_cost then none
    else if model.quality_score < SmartRouter.effective_min_quality s require_quality then none
    else some (key, model, cost, SmartRouter.get_latency_estimate s key model)

/-- The `candidates` list built by `route`'s filtering loop, in registry
order. -/
def SmartRouter.candidates (s : SmartRouter) (task : TaskType)
    (input_tokens expected_output_tokens : ℕ) (require_local : Bool)
    (require_quality : Option ℚ) (max_cost : Option ℚ) :
    List (String × ModelCapability × ℚ × ℤ) :=
  s.model_registry.filterMap
    (SmartRouter.consider s task input_tokens expected_output_tokens
      require_local require_quality max_cost)

/-- The selection after scoring: `route` stable-sorts the scored candidates
descending by score and takes the first, i.e. the earliest candidate with the
maximal score; modelled by a left fold that replaces the current best only on
a strictly greater score. -/
def pickFirstMax {α : Type} : List (ℚ × α) → Option (ℚ × α)
  | [] => none
  | x :: xs => some (xs.foldl (fun best y => if y.1 > best.1 then y else best) x)

/-- `SmartRouter.route`. Returns `none` exactly when the Python code raises:
the fallback branch reads `self.model_registry[self.config.fallback_model]`,
a `KeyError` when the fallback key is absent. -/
def SmartRouter.route (s : SmartRouter) (task : TaskType)
    (input_tokens expected_output_tokens : ℕ) (require_local : Bool)
    (require_quality : Option ℚ) (max_cost : Option ℚ) :
    Option RoutingDecision :=
  let cands := SmartRouter.candidates s task input_tokens expected_output_tokens
    require_local require_quality max_cost
  if cands.isEmpty then
    match lookupAssoc s.model_registry s.config.fallback_model with
    | none => none
    | some fallback =>
        some { model_key := s.config.fallback_model
               model := fallback
               reason := "No suitable model found, using fallback"
               estimated_cost := 0.0
               estimated_latency_ms := fallback.avg_latency_ms }
  else
    let scored := cands.map (fun c => (SmartRouter.score_model s c.2.1 c.2.2.1 c.2.2.2, c))
    match pickFirstMax scored with
    | none => none
    | some best =>
        let bk := best.2.1
        let bm := best.2.2.1
        let bc := best.2.2.2.1
        let bl := best.2.2.2.2
        some { model_key := bk
               model := bm
               reason := SmartRouter.generate_reason bm bc bl task
               estimated_cost := bc
               estimated_latency_ms := bl }

/-- The truncation at the end of `record_latency`: keep only the last 100
measurements (`history[-100:]` when the length exceeds 100). -/
def truncate100 (l : List ℚ) : List ℚ :=
  if l.length > 100 then l.drop (l.length - 100) else l

/-- `SmartRouter.record_latency`: unconditionally append the sample to the
model's history, then truncate to the last 100 entries. -/
def SmartRouter.record_latency (s : SmartRouter) (model_key : String)
    (latency_ms : ℚ) : SmartRouter :=
  let cur := (lookupAssoc s.latency_history model_key).getD []
  { s with latency_history :=
      setAssoc s.latency_history model_key (truncate100 (cur ++ [latency_ms])) }

/-! ## Helper lemmas -/

theorem lookup_setAssoc_self {α : Type} (l : List (String × α)) (k : String) (v : α) :
    lookupAssoc (setAssoc l k v) k = some v := by
  induction l with
  | nil => simp [setAssoc, lookupAssoc]
  | cons hd tl ih =>
      by_cases h : hd.1 = k
      · simp [setAssoc, lookupAssoc, h]
      · simp [setAssoc, lookupAssoc, h, ih]

theorem lookup_setAssoc_other {α : Type} (l : List (String × α)) (k m : String) (v : α)
    (hne : m ≠ k) : lookupAssoc (setAssoc l k v) m = lookupAssoc l m := by
  have hkm : ¬ k = m := fun h => hne h.symm
  induction l with
  | nil => simp [setAssoc, lookupAssoc, hkm]
  | cons hd tl ih =>
      by_cases h : hd.1 = k
      · simp [setAssoc, lookupAssoc, h, hkm]
      · by_cases h2 : hd.1 = m <;> simp [setAssoc, lookupAssoc, h, h2, hne, ih]

theorem lookup_bumpAssoc (l : List (String × ℚ)) (k m : String) (v : ℚ) :
    ((lookupAssoc (bumpAssoc l k v) m).getD 0)
      = (lookupAssoc l m).getD 0 + (if k = m then v else 0) := by
  induction l with
  | nil =>
      by_cases h : k = m <;> simp [bumpAssoc, lookupAssoc, h]
  | cons hd tl ih =>
      by_cases h : hd.1 = k
      · subst h
        by_cases h2 : hd.1 = m <;>
          simp [bumpAssoc, lookupAssoc, h2]
      · by_cases h2 : hd.1 = m
        · have hkm : ¬ k = m := fun hkm => h (hkm ▸ h2)
          have hmk : ¬ m = k := fun hmk => hkm hmk.symm
          simp [bumpAssoc, lookupAssoc, h, h2, hkm, hmk]
        · simp [bumpAssoc, lookupAssoc, h, h2, ih]

/-! ## C1: budget gate semantics -/

/-- C1: when a budget limit is set, `check_budget(x)` approves exactly when
`total_spent + x ≤ budget_limit`, answering `(true, "Within budget")` in that
case and `(false, reason)` naming the remaining headroom otherwise; with no
limit set it always answers `(true, "No budget limit set")`. -/
theorem check_budget_spec (c : CostCalculator) (x : ℚ) (_hx : 0 ≤ x) :
    (c.budget_limit = none → c.check_budget x = (true, "No budget limit set"))
    ∧ ∀ L, c.budget_limit = some L →
        (((c.check_budget x).1 = true) ↔ c.total_spent + x ≤ L)
        ∧ (c.total_spent + x ≤ L → c.check_budget x = (true, "Within budget"))
        ∧ (L < c.total_spent + x →
            c.check_budget x =
              (false, "Would exceed budget. Remaining: $"
                        ++ formatFixed4 (L - c.total_spent))) := by
  refine ⟨fun h => ?_, fun L hL => ?_⟩
  · simp [CostCalculator.check_budget, h]
  · by_cases hle : c.total_spent + x ≤ L
    · have hnot : ¬ (L < c.total_spent + x) := not_lt.mpr hle
      exact ⟨by simp [CostCalculator.check_budget, hL, hnot, hle],
             fun _ => by simp [CostCalculator.check_budget, hL, hnot],
             fun hlt => absurd hlt hnot⟩
    · have hgt : L < c.total_spent + x := lt_of_not_le hle
      exact ⟨by simp [CostCalculator.check_budget, hL, hgt, hle],
             fun h2 => absurd h2 hle,
             fun _ => by simp [CostCalculator.check_budget, hL, hgt]⟩

/-- Witness for C1 at spec scenario S5: spent 0.95 of a 1.00 budget, a
0.10 request is refused naming the remaining $0.0500. -/
theorem check_budget_spec_witness :
    (0 : ℚ) ≤ 0.10
    ∧ CostCalculator.check_budget
        { total_spent := 0.95, budget_limit := some 1, spending_history := [] } 0.10
      = (false, "Would exceed budget. Remaining: $0.0500") := by
  refine ⟨by norm_num, ?_⟩
  have h := (check_budget_spec
    { total_spent := 0.95, budget_limit := some 1, spending_history := [] }
    0.10 (by norm_num)).2 1 rfl
  have h2 := h.2.2 (by norm_num)
  rw [h2]
  with_unfolding_all rfl

/-! ## C5: cost recording is additive -/

theorem foldl_record_cost (es : List CostEstimate) (c : CostCalculator) :
    es.foldl CostCalculator.record_cost c =
      { total_spent := c.total_spent + (es.map CostEstimate.total_cost).sum
        budget_limit := c.budget_limit
        spending_history := c.spending_history ++ es } := by
  induction es generalizing c with
  | nil => simp
  | cons e tl ih =>
      rw [List.foldl_cons, ih]
      simp [CostCalculator.record_cost, add_assoc]

theorem lookup_foldl_bump (es : List CostEstimate) (acc : List (String × ℚ)) (m : String) :
    (lookupAssoc (es.foldl (fun a e => bumpAssoc a e.model e.total_cost) acc) m).getD 0
      = (lookupAssoc acc m).getD 0
        + ((es.filter (fun e => e.model == m)).map CostEstimate.total_cost).sum := by
  induction es generalizing acc with
  | nil => simp
  | cons e tl ih =>
      rw [List.foldl_cons, ih, lookup_bumpAssoc]
      by_cases h : e.model = m <;> simp [h, List.filter_cons, add_assoc]

/-- C5: recording N cost estimates on a fresh calculator makes
`get_summary().total_spent` the sum of their `total_cost` values,
`request_count` equal to N, and `by_model` the per-model sums. -/
theorem record_cost_additive (es : List CostEstimate) :
    (CostCalculator.get_summary
        (es.foldl CostCalculator.record_cost CostCalculator.init)).total_spent
      = (es.map CostEstimate.total_cost).sum
    ∧ (CostCalculator.get_summary
        (es.foldl CostCalculator.record_cost CostCalculator.init)).request_count
      = es.length
    ∧ ∀ m : String,
        ((lookupAssoc (CostCalculator.get_summary
            (es.foldl CostCalculator.record_cost CostCalculator.init)).by_model m).getD 0)
          = ((es.filter (fun e => e.model == m)).map CostEstimate.total_cost).sum := by
  rw [foldl_record_cost]
  refine ⟨by simp [CostCalculator.get_summary, CostCalculator.init],
          by simp [CostCalculator.get_summary, CostCalculator.init],
          fun m => ?_⟩
  simp [CostCalculator.get_summary, CostCalculator.init, lookup_foldl_bump, lookupAssoc]

/-! ## C6: output-token projection -/

/-- C6: for every payload and model, the estimated output tokens are
`min(input_tokens // 2, 2000)` and the total is their sum with the input
tokens. -/
theorem count_tokens_output_projection (ta : TokenAnalyzer) (p : Payload) (model : String) :
    (ta.count_tokens p model).estimated_output_tokens
        = min ((ta.count_tokens p model).input_tokens / 2) 2000
    ∧ (ta.count_tokens p model).total_tokens
        = (ta.count_tokens p model).input_tokens
          + (ta.count_tokens p model).estimated_output_tokens :=
  ⟨rfl, rfl⟩

/-! ## C7: character-heuristic fallback -/

/-- C7 counterexample: for the unmatched model "local-whisper" and the
5-character payload "hello", the code computes `5 // 4 = 1` input tokens,
while the claimed ceiling `⌈5 / 4⌉` is 2. -/
theorem count_tokens_floor_counterexample :
    (TokenAnalyzer.count_tokens ⟨fun _ _ => 0, fun _ => 0⟩
        (.str "hello") "local-whisper").input_tokens = 1
    ∧ ⌈(5 : ℚ) / 4⌉ = 2 ∧ (1 : ℤ) ≠ 2 := by
  refine ⟨by with_unfolding_all rfl, by with_unfolding_all rfl, by decide⟩

/-- C7 amended: for every model matching none of the known tokenizer families,
`count_tokens` returns the floor `chars // 4` of the flattened text's character
count, with the method tagged "character-estimate". -/
theorem count_tokens_char_fallback (ta : TokenAnalyzer) (p : Payload) (model : String)
    (h1 : containsSub "gpt" (lowerStr model) = false)
    (h2 : containsSub "openai" (lowerStr model) = false)
    (h3 : containsSub "llama" (lowerStr model) = false)
    (h4 : containsSub "claude" (lowerStr model) = false) :
    (ta.count_tokens p model).input_tokens = (payloadText p).length / 4
    ∧ (ta.count_tokens p model).method = "character-estimate" := by
  unfold TokenAnalyzer.count_tokens
  simp [h1, h2, h3, h4]

/-- Witness for the amended C7 on the model "av-local-tts" and the payload
"hello world" (11 characters, `11 // 4 = 2`). -/
theorem count_tokens_char_fallback_witness :
    containsSub "gpt" (lowerStr "av-local-tts") = false
    ∧ containsSub "openai" (lowerStr "av-local-tts") = false
    ∧ containsSub "llama" (lowerStr "av-local-tts") = false
    ∧ containsSub "claude" (lowerStr "av-local-tts") = false
    ∧ (TokenAnalyzer.count_tokens ⟨fun _ _ => 0, fun _ => 0⟩
          (.str "hello world") "av-local-tts").input_tokens
        = (payloadText (.str "hello world")).length / 4 := by
  have h1 : containsSub "gpt" (lowerStr "av-local-tts") = false := by with_unfolding_all rfl
  have h2 : containsSub "openai" (lowerStr "av-local-tts") = false := by with_unfolding_all rfl
  have h3 : containsSub "llama" (lowerStr "av-local-tts") = false := by with_unfolding_all rfl
  have h4 : containsSub "claude" (lowerStr "av-local-tts") = false := by with_unfolding_all rfl
  exact ⟨h1, h2, h3, h4,
    (count_tokens_char_fallback ⟨fun _ _ => 0, fun _ => 0⟩
      (.str "hello world") "av-local-tts" h1 h2 h3 h4).1⟩

/-! ## C8: totality of estimate_cost -/

/-- C8 (code bug): `estimate_cost` is not total. A model id matching the
`elevenlabs` pricing entry hits a pricing dict holding only `per_character`,
so the read of `pricing["input"]` raises `KeyError`; models matched by no
pricing family do degrade to zero cost as claimed. -/
theorem estimate_cost_keyerror :
    CostCalculator.estimate_cost "elevenlabs" 1000 0 = Except.error "KeyError: input"
    ∧ CostCalculator.estimate_cost "my-local-model" 1000 500
        = Except.ok { input_cost := 0, output_cost := 0, total_cost := 0,
                      currency := "USD", model := "my-local-model",
                      breakdown := some ⟨1000, 500, 0, 0⟩ } := by
  constructor <;> with_unfolding_all rfl

/-! ## C2: the quality filter -/

/-- A router whose configured quality floor (0.9) is above the default. -/
def strictRouter : SmartRouter :=
  { SmartRouter.init with
      config := { RouterConfig.default with min_quality_score := 0.9 } }

/-- C2 counterexample: with `config.min_quality_score = 0.9` and
`require_quality = 0.85`, `route` selects `ollama:qwen2.5-coder:7b` of quality
0.85 — a non-fallback model whose quality is below
`max(require_quality, config.min_quality_score) = 0.9`: the code's
`require_quality or config.min_quality_score` lets a provided `require_quality`
lower the configured floor. -/
theorem route_quality_counterexample :
    (SmartRouter.route strictRouter .chat 1000 500 false (some 0.85) none).map
        (fun d => (d.model_key, d.model.quality_score))
      = some ("ollama:qwen2.5-coder:7b", 0.85)
    ∧ (0.85 : ℚ) < max 0.85 strictRouter.config.min_quality_score
    ∧ "ollama:qwen2.5-coder:7b" ≠ strictRouter.config.fallback_model := by
  refine ⟨by with_unfolding_all rfl, ?_, by decide⟩
  have h : strictRouter.config.min_quality_score = 0.9 := rfl
  rw [h, max_eq_right (by norm_num : (0.85 : ℚ) ≤ 0.9)]
  norm_num

/-- C2 amended: a registry entry survives `route`'s filtering pass iff it
supports the task, meets the locality requirement, fits the context window,
costs at most the effective cap, and its quality score is at least the
effective minimum — which is `require_quality` when provided and nonzero,
and `config.min_quality_score` otherwise (Python `or`), not the maximum of
the two. -/
theorem consider_filter_spec (s : SmartRouter) (task : TaskType)
    (it ot : ℕ) (rl : Bool) (rq mc : Option ℚ) (kv : String × ModelCapability) :
    (SmartRouter.consider s task it ot rl rq mc kv).isSome = true
    ↔ (task ∈ kv.2.supports
       ∧ (rl = true → kv.2.is_local = true)
       ∧ it ≤ kv.2.max_context
       ∧ SmartRouter.calculate_cost kv.2 it ot ≤ SmartRouter.effective_max_cost s mc
       ∧ SmartRouter.effective_min_quality s rq ≤ kv.2.quality_score) := by
  unfold SmartRouter.consider
  dsimp only
  split_ifs with h1 h2 h3 h4 h5
  all_goals simp_all [not_lt]

/-- Witness for the amended C2: the qwen entry passes the filter under
`strictRouter` with `require_quality = 0.85` even though its quality 0.85 is
below the configured 0.9 floor. -/
theorem consider_filter_spec_witness :
    (SmartRouter.consider strictRouter .chat 1000 500 false (some 0.85) none
        ("ollama:qwen2.5-coder:7b", ollamaQwenCoder)).isSome = true := by
  refine (consider_filter_spec strictRouter .chat 1000 500 false (some 0.85) none
    ("ollama:qwen2.5-coder:7b", ollamaQwenCoder)).mpr
    ⟨by decide, fun _ => rfl, by decide,
     of_decide_eq_true (by with_unfolding_all rfl),
     of_decide_eq_true (by with_unfolding_all rfl)⟩

/-! ## C3: the cost cap -/

theorem foldl_pick_mem {α : Type} (xs : List (ℚ × α)) (x : ℚ × α) :
    xs.foldl (fun best y => if y.1 > best.1 then y else best) x ∈ x :: xs := by
  induction xs generalizing x with
  | nil => simp
  | cons y ys ih =>
      rw [List.foldl_cons]
      rcases List.mem_cons.mp (ih (if y.1 > x.1 then y else x)) with h1 | h1
      · rw [h1]
        by_cases hc : y.1 > x.1
        · simp [hc]
        · simp [hc]
      · exact List.mem_cons_of_mem _ (List.mem_cons_of_mem _ h1)

theorem pickFirstMax_mem {α : Type} (l : List (ℚ × α)) (p : ℚ × α)
    (h : pickFirstMax l = some p) : p ∈ l := by
  match l with
  | [] => simp [pickFirstMax] at h
  | x :: xs =>
      simp only [pickFirstMax, Option.some_inj] at h
      rw [← h]
      exact foldl_pick_mem xs x

/-- Every tuple in `candidates` came from a registry entry whose `consider`
succeeded, with the tuple's cost being that entry's calculated cost. -/
theorem candidates_shape (s : SmartRouter) (task : TaskType) (it ot : ℕ)
    (rl : Bool) (rq mc : Option ℚ) (c : String × ModelCapability × ℚ × ℤ)
    (h : c ∈ SmartRouter.candidates s task it ot rl rq mc) :
    (c.1, c.2.1) ∈ s.model_registry
    ∧ c.2.2.1 = SmartRouter.calculate_cost c.2.1 it ot
    ∧ c.2.2.1 ≤ SmartRouter.effective_max_cost s mc := by
  rcases List.mem_filterMap.mp h with ⟨kv, hkv, hc⟩
  unfold SmartRouter.consider at hc
  dsimp only at hc
  split_ifs at hc with h1 h2 h3 h4 h5
  obtain rfl := Option.some.inj hc
  exact ⟨hkv, rfl, not_lt.mp h4⟩

theorem calculate_cost_nonneg (m : ModelCapability) (it ot : ℕ)
    (hin : 0 ≤ m.cost_per_1k_input) (hout : 0 ≤ m.cost_per_1k_output) :
    0 ≤ SmartRouter.calculate_cost m it ot := by
  unfold SmartRouter.calculate_cost
  have h1 : (0 : ℚ) ≤ (it : ℚ) / 1000 := by positivity
  have h2 : (0 : ℚ) ≤ (ot : ℚ) / 1000 := by positivity
  exact add_nonneg (mul_nonneg h1 hin) (mul_nonneg h2 hout)

/-- C3: the effective cost cap is the per-call `max_cost` when provided —
an explicit `max_cost = 0` keeps only zero-cost candidates — and
`config.max_cost_usd` only when `max_cost` is `null`; every decision other
than the fallback one has `estimated_cost` at most the effective cap
(registry prices assumed non-negative, as they are in `MODEL_REGISTRY`). -/
theorem route_cost_cap (s : SmartRouter) (task : TaskType) (it ot : ℕ)
    (rl : Bool) (rq mc : Option ℚ)
    (hreg : ∀ kv ∈ s.model_registry,
      0 ≤ kv.2.cost_per_1k_input ∧ 0 ≤ kv.2.cost_per_1k_output) :
    SmartRouter.effective_max_cost s mc
        = (match mc with | none => s.config.max_cost_usd | some c => c)
    ∧ (∀ c ∈ SmartRouter.candidates s task it ot rl rq mc,
        c.2.2.1 ≤ SmartRouter.effective_max_cost s mc
        ∧ (mc = some 0 → c.2.2.1 = 0))
    ∧ (∀ d, SmartRouter.route s task it ot rl rq mc = some d →
        d.reason = "No suitable model found, using fallback"
        ∨ d.estimated_cost ≤ SmartRouter.effective_max_cost s mc) := by
  have hcand : ∀ c ∈ SmartRouter.candidates s task it ot rl rq mc,
      c.2.2.1 ≤ SmartRouter.effective_max_cost s mc ∧ (mc = some 0 → c.2.2.1 = 0) := by
    intro c hc
    obtain ⟨hmem, hcost, hle⟩ := candidates_shape s task it ot rl rq mc c hc
    refine ⟨hle, fun h0 => ?_⟩
    have hnn : 0 ≤ c.2.2.1 := by
      rw [hcost]
      exact calculate_cost_nonneg _ it ot (hreg _ hmem).1 (hreg _ hmem).2
    have heff : SmartRouter.effective_max_cost s mc = 0 := by
      rw [h0]; rfl
    exact le_antisymm (heff ▸ hle) hnn
  refine ⟨rfl, hcand, fun d hd => ?_⟩
  unfold SmartRouter.route at hd
  by_cases hemp : (SmartRouter.candidates s task it ot rl rq mc).isEmpty
  · rw [if_pos hemp] at hd
    cases hlk : lookupAssoc s.model_registry s.config.fallback_model with
    | none => rw [hlk] at hd; cases hd
    | some fb =>
        rw [hlk] at hd
        cases hd
        exact Or.inl rfl
  · rw [if_neg hemp] at hd
    dsimp only at hd
    cases hpk : pickFirstMax ((SmartRouter.candidates s task it ot rl rq mc).map
        (fun c => (SmartRouter.score_model s c.2.1 c.2.2.1 c.2.2.2, c))) with
    | none => rw [hpk] at hd; cases hd
    | some best =>
        rw [hpk] at hd
        dsimp only at hd
        cases hd
        have hmem := pickFirstMax_mem _ _ hpk
        rcases List.mem_map.mp hmem with ⟨c, hc, hbc⟩
        have : best.2 = c := by rw [← hbc]
        rw [this]
        exact Or.inr (hcand c hc).1

/-- Witness for C3: the default registry has non-negative prices, and under an
explicit `max_cost = 0` every route decision is the fallback or has zero cost
(which is at most the zero cap). -/
theorem route_cost_cap_witness :
    (∀ kv ∈ SmartRouter.init.model_registry,
      0 ≤ kv.2.cost_per_1k_input ∧ 0 ≤ kv.2.cost_per_1k_output)
    ∧ ∀ d, SmartRouter.route SmartRouter.init .chat 1000 500 false none (some 0) = some d →
        d.reason = "No suitable model found, using fallback"
        ∨ d.estimated_cost ≤ SmartRouter.effective_max_cost SmartRouter.init (some 0) := by
  have hreg : ∀ kv ∈ SmartRouter.init.model_registry,
      0 ≤ kv.2.cost_per_1k_input ∧ 0 ≤ kv.2.cost_per_1k_output := by
    intro kv hkv
    fin_cases hkv <;>
      exact ⟨of_decide_eq_true (by with_unfolding_all rfl),
             of_decide_eq_true (by with_unfolding_all rfl)⟩
  exact ⟨hreg, (route_cost_cap SmartRouter.init .chat 1000 500 false none (some 0) hreg).2.2⟩

/-! ## C4: unsupported tasks and the fallback -/

/-- C4 counterexample: the embedding task is supported by no registry entry and
not by the fallback model, yet `route` returns a `RoutingDecision` naming the
fallback rather than failing with an UnknownTask error. -/
theorem route_unknown_task_counterexample :
    (SmartRouter.route SmartRouter.init .embedding 100 500 false none none).map
        (fun d => (d.model_key, d.reason))
      = some ("mlx:llama-3.2-8b", "No suitable model found, using fallback")
    ∧ TaskType.embedding ∉ mlxLlama.supports
    ∧ lookupAssoc SmartRouter.init.model_registry "mlx:llama-3.2-8b" = some mlxLlama :=
  ⟨by with_unfolding_all rfl, by decide, by with_unfolding_all rfl⟩

/-- C4 amended: when no registry entry supports the requested task, `route`
does not fail — the code has no UnknownTask error at all — but returns the
fallback decision unconditionally, even though the fallback model cannot serve
the task. -/
theorem route_unsupported_task_fallback (s : SmartRouter) (task : TaskType)
    (it ot : ℕ) (rl : Bool) (rq mc : Option ℚ) (fb : ModelCapability)
    (hfb : lookupAssoc s.model_registry s.config.fallback_model = some fb)
    (hns : ∀ kv ∈ s.model_registry, task ∉ kv.2.supports) :
    SmartRouter.route s task it ot rl rq mc =
      some { model_key := s.config.fallback_model, model := fb,
             reason := "No suitable model found, using fallback",
             estimated_cost := 0.0, estimated_latency_ms := fb.avg_latency_ms } := by
  have hcand : SmartRouter.candidates s task it ot rl rq mc = [] := by
    unfold SmartRouter.candidates
    rw [List.filterMap_eq_nil_iff]
    intro kv hkv
    unfold SmartRouter.consider
    dsimp only
    rw [if_pos (hns kv hkv)]
  unfold SmartRouter.route
  rw [hcand]
  simp [hfb]

/-- Witness for the amended C4 at the embedding task on the default router. -/
theorem route_unsupported_task_fallback_witness :
    lookupAssoc SmartRouter.init.model_registry SmartRouter.init.config.fallback_model
        = some mlxLlama
    ∧ (∀ kv ∈ SmartRouter.init.model_registry, TaskType.embedding ∉ kv.2.supports)
    ∧ SmartRouter.route SmartRouter.init .embedding 64000 500 false none none =
        some { model_key := SmartRouter.init.config.fallback_model, model := mlxLlama,
               reason := "No suitable model found, using fallback",
               estimated_cost := 0.0, estimated_latency_ms := mlxLlama.avg_latency_ms } := by
  have hfb : lookupAssoc SmartRouter.init.model_registry
      SmartRouter.init.config.fallback_model = some mlxLlama := by with_unfolding_all rfl
  have hns : ∀ kv ∈ SmartRouter.init.model_registry, TaskType.embedding ∉ kv.2.supports := by
    intro kv hkv
    fin_cases hkv <;> decide
  exact ⟨hfb, hns, route_unsupported_task_fallback SmartRouter.init .embedding
    64000 500 false none none mlxLlama hfb hns⟩

/-! ## C9: latency feedback -/

/-- C9 counterexample: recording the non-positive latency sample `-1.0` on a
fresh router changes the model's latency history — the code performs no range
check, contradicting the claimed silent rejection. -/
theorem record_latency_nonpositive_counterexample :
    (SmartRouter.record_latency SmartRouter.init "openai:gpt-4o" (-1)).latency_history
      = [("openai:gpt-4o", [-1])]
    ∧ SmartRouter.init.latency_history = [] := by
  constructor
  · with_unfolding_all rfl
  · rfl

/-- C9 amended: `record_latency` appends every sample — positive or not (the
rational model has no non-finite values) — to the model's history, truncating
to the most recent 100, and leaves every other model's history unchanged. -/
theorem record_latency_appends (s : SmartRouter) (key : String) (lat : ℚ) :
    lookupAssoc (s.record_latency key lat).latency_history key
      = some (truncate100 (((lookupAssoc s.latency_history key).getD []) ++ [lat]))
    ∧ ∀ k2, k2 ≠ key →
        lookupAssoc (s.record_latency key lat).latency_history k2
          = lookupAssoc s.latency_history k2 := by
  unfold SmartRouter.record_latency
  exact ⟨lookup_setAssoc_self _ _ _, fun k2 h => lookup_setAssoc_other _ _ _ _ h⟩

/-- Witness for the amended C9: a 250 ms sample for gpt-4o lands in its
history; the claude history is untouched. -/
theorem record_latency_appends_witness :
    lookupAssoc (SmartRouter.init.record_latency "openai:gpt-4o" 250).latency_history
        "openai:gpt-4o"
      = some (truncate100
          (((lookupAssoc SmartRouter.init.latency_history "openai:gpt-4o").getD []) ++ [250]))
    ∧ lookupAssoc (SmartRouter.init.record_latency "openai:gpt-4o" 250).latency_history
        "anthropic:claude-3.5-sonnet"
      = lookupAssoc SmartRouter.init.latency_history "anthropic:claude-3.5-sonnet" := by
  have h := record_latency_appends SmartRouter.init "openai:gpt-4o" 250
  exact ⟨h.1, h.2 "anthropic:claude-3.5-sonnet" (by decide)⟩

/-! ## C10: route is read-only on router state -/

/-- The `route` method as a state transformer. The Python body only reads
`self.config`, `self.model_registry` and `self._latency_history` (the latter
through `_get_latency_estimate`) and assigns to no `self` attribute, so its
translation returns the decision computed from the state it was given. -/
def SmartRouter.routeCall (task : TaskType) (it ot : ℕ) (rl : Bool)
    (rq mc : Option ℚ) : StateM SmartRouter (Option RoutingDecision) := do
  let s ← get
  pure (s.route task it ot rl rq mc)

/-- The `record_latency` method as a state transformer: it updates
`self._latency_history`. -/
def SmartRouter.recordLatencyCall (model_key : String) (latency_ms : ℚ) :
    StateM SmartRouter Unit :=
  modify (fun s => s.record_latency model_key latency_ms)

/-- C10: a `route` call leaves the router state — registry, config and every
model's latency history — exactly as it was, and its value is the pure routing
function of the prior state; `record_latency` is the only mutator, and it
touches only the latency history, preserving registry and config. -/
theorem route_read_only (s : SmartRouter) (task : TaskType) (it ot : ℕ)
    (rl : Bool) (rq mc : Option ℚ) (key : String) (lat : ℚ) :
    ((SmartRouter.routeCall task it ot rl rq mc).run s).2 = s
    ∧ ((SmartRouter.routeCall task it ot rl rq mc).run s).1
        = SmartRouter.route s task it ot rl rq mc
    ∧ ((SmartRouter.recordLatencyCall key lat).run s).2.config = s.config
    ∧ ((SmartRouter.recordLatencyCall key lat).run s).2.model_registry
        = s.model_registry :=
  ⟨rfl, rfl, rfl, rfl⟩
